import Mathlib

/-
Verification of the time-range helpers and the cache transfer logic of
the studiolibrary Maya plugin (src/mutils/cache.py and
src/studiolibrarymaya/cacheitem.py), as a shallow embedding in Lean.

Frame ranges are pairs of integers.  Functions that raise Python
exceptions are embedded as functions returning `Option` or `Except`,
with `none` / `.error` marking the raised exception.
-/

namespace StudioLibrary

/-- Embedding of `clampRange(srcTime, dstTime)` (cache.py, lines 113-142).
Clips the source time to within the destination time.  The Python code
raises `OutOfBoundsError` when `srcStart > dstEnd or srcEnd < dstStart`;
here that branch returns `none`.  Otherwise the two `if` statements
replace `srcStart` by `dstStart` when `srcStart < dstStart` and `srcEnd`
by `dstEnd` when `srcEnd > dstEnd`. -/
def clampRange (srcTime dstTime : Int × Int) : Option (Int × Int) :=
  let srcStart := srcTime.1
  let srcEnd := srcTime.2
  let dstStart := dstTime.1
  let dstEnd := dstTime.2
  if srcStart > dstEnd ∨ srcEnd < dstStart then
    none
  else
    let srcStart := if srcStart < dstStart then dstStart else srcStart
    let srcEnd := if srcEnd > dstEnd then dstEnd else srcEnd
    some (srcStart, srcEnd)

/-- Embedding of `moveTime(time, start)` (cache.py, lines 145-170).
Moves the given time to the given start time.  `start` may be Python
`None`, embedded as `Option.none`, in which case the source start time
is kept.  When the shifted end time equals the start time the code bumps
the end time by one. -/
def moveTime (time : Int × Int) (start : Option Int) : Int × Int :=
  let srcStartTime := time.1
  let srcEndTime := time.2
  let duration := srcEndTime - srcStartTime
  let startTime :=
    match start with
    | none => srcStartTime
    | some s => s
  let endTime := startTime + duration
  let endTime := if startTime = endTime then startTime + 1 else endTime
  (startTime, endTime)

/-- Helper: `moveTime` on a non-degenerate range with an explicit start. -/
theorem moveTime_some_eq (s e t : Int) (h : e ≠ s) :
    moveTime (s, e) (some t) = (t, t + (e - s)) := by
  unfold moveTime
  simp only
  rw [if_neg (by omega)]

/-- Helper: `moveTime` with Python `None` as start keeps a non-degenerate
range unchanged. -/
theorem moveTime_none_eq (s e : Int) (h : e ≠ s) :
    moveTime (s, e) none = (s, e) := by
  unfold moveTime
  simp only
  rw [if_neg (by omega)]
  simp only [Prod.mk.injEq, true_and]
  omega

/-- C1: `clampRange` fails (raises `OutOfBoundsError`, embedded as `none`)
exactly when the two ranges do not overlap, i.e. `srcStart > dstEnd` or
`srcEnd < dstStart`; otherwise it returns the intersection
`(max srcStart dstStart, min srcEnd dstEnd)`.  The spec examples
`clampRange((15,35),(20,30)) == (20,30)` and
`clampRange((25,45),(20,30)) == (25,30)` hold. -/
theorem clampRange_spec (srcStart srcEnd dstStart dstEnd : Int) :
    (clampRange (srcStart, srcEnd) (dstStart, dstEnd) = none ↔
      srcStart > dstEnd ∨ srcEnd < dstStart) ∧
    (¬(srcStart > dstEnd ∨ srcEnd < dstStart) →
      clampRange (srcStart, srcEnd) (dstStart, dstEnd) =
        some (max srcStart dstStart, min srcEnd dstEnd)) ∧
    clampRange (15, 35) (20, 30) = some (20, 30) ∧
    clampRange (25, 45) (20, 30) = some (25, 30) := by
  refine ⟨?_, ?_, by decide, by decide⟩
  · by_cases h : srcStart > dstEnd ∨ srcEnd < dstStart
    · simp [clampRange, h]
    · simp [clampRange, h]
  · intro h
    rcases not_or.mp h with ⟨h1, h2⟩
    simp only [clampRange, h, if_false, Option.some.injEq, Prod.mk.injEq,
      max_def, min_def]
    constructor <;> split_ifs <;> omega

/-- Witness for `clampRange_spec` at a concrete input with the overlap
hypothesis discharged. -/
theorem clampRange_spec_witness :
    ¬((15:Int) > 30 ∨ (35:Int) < 20) ∧
    clampRange (15, 35) (20, 30) = some (max 15 20, min 35 30) :=
  ⟨by decide, (clampRange_spec 15 35 20 30).2.1 (by decide)⟩

/-- C2 counterexample: on the zero-duration range `(0, 0)` with start `5`,
`moveTime` returns `(5, 6)`, not `(5, 5 + (0 - 0)) = (5, 5)` as the claim,
read over every input range, demands. -/
theorem moveTime_zero_duration_counterexample :
    moveTime (0, 0) (some 5) ≠ (5, 5 + ((0:Int) - 0)) := by decide

/-- C2 (amended): for every input range `(s, e)` with `e ≠ s` and every
integer `start`, `moveTime((s, e), start)` shifts the range to the new
start preserving its duration, returning `(start, start + (e - s))`;
for zero-duration input `e = s` it returns `(start, start + 1)` instead.
In particular `moveTime((15,35), 5) = (5, 25)`. -/
theorem moveTime_preserves_duration (s e t : Int) :
    (e ≠ s → moveTime (s, e) (some t) = (t, t + (e - s))) ∧
    (e = s → moveTime (s, e) (some t) = (t, t + 1)) ∧
    moveTime (15, 35) (some 5) = (5, 25) := by
  refine ⟨?_, ?_, by decide⟩
  · intro h
    unfold moveTime
    simp only
    rw [if_neg (by omega)]
  · intro h
    unfold moveTime
    simp only
    rw [if_pos (by omega)]

/-- Witness for `moveTime_preserves_duration` at concrete inputs with the
hypotheses discharged. -/
theorem moveTime_preserves_duration_witness :
    moveTime (15, 35) (some 5) = (5, 5 + ((35:Int) - 15)) ∧
    moveTime (15, 15) (some 7) = (7, 7 + 1) :=
  ⟨(moveTime_preserves_duration 15 35 5).1 (by decide),
   (moveTime_preserves_duration 15 15 7).2.1 rfl⟩

/-- C3: for every range `(s, e)` with `s ≤ e` and every integer `start`,
the pair returned by `moveTime` has its second component strictly greater
than its first; in the zero-duration case `s = e` the result is exactly
`(start, start + 1)`. -/
theorem moveTime_end_gt_start (s e t : Int) (h : s ≤ e) :
    (moveTime (s, e) (some t)).1 < (moveTime (s, e) (some t)).2 ∧
    (s = e → moveTime (s, e) (some t) = (t, t + 1)) := by
  unfold moveTime
  simp only
  constructor
  · split_ifs <;> omega
  · intro hse
    rw [if_pos (by omega)]

/-- Witness for `moveTime_end_gt_start` at a concrete zero-duration input
with the hypotheses discharged. -/
theorem moveTime_end_gt_start_witness :
    (moveTime (10, 10) (some 3)).1 < (moveTime (10, 10) (some 3)).2 ∧
    moveTime (10, 10) (some 3) = (3, 3 + 1) :=
  ⟨(moveTime_end_gt_start 10 10 3 (by decide)).1,
   (moveTime_end_gt_start 10 10 3 (by decide)).2 rfl⟩

/-- C10: passing Python `None` as the start is the identity on
positive-duration ranges, and `moveTime` at a fixed start is idempotent
on them: for every `(s, e)` with `e > s` and every integer `t`,
`moveTime((s,e), None) = (s, e)` and
`moveTime(moveTime((s,e), t), t) = moveTime((s,e), t)`. -/
theorem moveTime_none_identity_and_idempotent (s e t : Int) (h : e > s) :
    moveTime (s, e) none = (s, e) ∧
    moveTime (moveTime (s, e) (some t)) (some t) = moveTime (s, e) (some t) := by
  constructor
  · exact moveTime_none_eq s e (by omega)
  · rw [moveTime_some_eq s e t (by omega),
      moveTime_some_eq t (t + (e - s)) t (by omega)]
    simp only [Prod.mk.injEq, true_and]
    omega

/-- Witness for `moveTime_none_identity_and_idempotent` at a concrete
input. -/
theorem moveTime_none_identity_and_idempotent_witness :
    (35:Int) > 15 ∧
    (moveTime (15, 35) none = (15, 35) ∧
     moveTime (moveTime (15, 35) (some 5)) (some 5) = moveTime (15, 35) (some 5)) :=
  ⟨by decide, moveTime_none_identity_and_idempotent 15 35 5 (by decide)⟩

/-- Embedding of `findFirstLastKeyframes(curves, time)` (cache.py, lines
173-195).  The host query `maya.cmds.findKeyframe(curves, which=...)` is
abstracted by passing its two results `first` and `last` as arguments.
When `time` is given (Python truthiness: any tuple is truthy, `None` is
falsy) the code clamps `time` to `(first, last)` and, when `clampRange`
raises `OutOfBoundsError`, logs a warning and keeps `(first, last)`. -/
def findFirstLastKeyframes (first last : Int) (time : Option (Int × Int)) :
    Int × Int :=
  let result := (first, last)
  match time with
  | none => result
  | some t => (clampRange t result).getD result

/-- Embedding of `Cache.isAscii` (cache.py, lines 451-453):
`all(ord(c) < 128 for c in s)`. -/
def isAscii (s : String) : Bool :=
  s.data.all (fun c => c.toNat < 128)

/-- Result of `Cache.open` (cache.py, lines 455-478): either the raised
`IOError` message, or the scene file that was imported by the
`maya.cmds.file(..., i=True, ...)` host call. -/
inductive OpenResult where
  | failed (msg : String)
  | imported (path : String)
deriving DecidableEq, Repr

/-- Embedding of `Cache.open` (cache.py, lines 455-478) as a function of
the cache's `mayaPath()`.  The preliminary `close()` call and the host's
file-input command are scene-state effects; what is kept is the control flow:
a non-ascii path raises `IOError` before the import runs, an ascii path
reaches the import of the scene file. -/
def cacheOpen (mayaPath : String) : OpenResult :=
  if ¬ isAscii mayaPath then
    .failed "Cannot load animation using non-ascii paths."
  else
    .imported mayaPath

/-- Modelled from the spec: `mutils.Pose.setMetadata` is inherited from
`mutils.Pose`, which is not under src/.  Per the spec the metadata is a
dict of "arbitrary key-value annotations ... persisted alongside the
bundle", "mutated in-place by `setMetadata`"; it is modelled as a partial
map from string keys to the integer values the frame-range claims use. -/
def setMetadata (meta : String → Option Int) (key : String) (value : Int) :
    String → Option Int :=
  fun k => if k = key then some value else meta k

/-- Embedding of `Cache.startFrame` (cache.py, lines 366-372):
`self.metadata().get("startFrame")`, with `metadata()` modelled from the
spec as the underlying key-value map. -/
def cacheStartFrame (meta : String → Option Int) : Option Int :=
  meta "startFrame"

/-- Embedding of `Cache.endFrame` (cache.py, lines 374-380):
`self.metadata().get("endFrame")`. -/
def cacheEndFrame (meta : String → Option Int) : Option Int :=
  meta "endFrame"

/-- Boolean test for the error branch of an embedded fallible call. -/
def isError {ε α : Type} (x : Except ε α) : Bool :=
  match x with
  | .error _ => true
  | .ok _ => false

/-- Embedding of the frame-range and metadata logic of `Cache.save`
(cache.py, lines 542-642) for an explicitly given `time`.  The two
components of `time` are optional because Python allows `None` entries;
the code first raises when either is `None`, then raises when
`start >= end`, then stores `endFrame` and `startFrame` in the metadata
and only afterwards performs `end += 1` for the `AbcExport` command.
On success the result holds the updated metadata and the `(start, end)`
range handed to the export command; the host-side export itself and the
pose-file write are abstracted. -/
def cacheSave (meta : String → Option Int) (time : Option Int × Option Int) :
    Except String ((String → Option Int) × (Int × Int)) :=
  match time with
  | (some start, some e) =>
      if start ≥ e then
        .error "The start frame cannot be greater than or equal to the end frame!"
      else
        let meta := setMetadata meta "endFrame" e
        let meta := setMetadata meta "startFrame" start
        .ok (meta, (start, e + 1))
  | _ => .error "Please specify a start and end frame!"

/-- C5: out-of-range clamps are logged and ignored, not raised: when the
given time does not overlap the host-reported `(first, last)` range,
`findFirstLastKeyframes` swallows the `OutOfBoundsError` and returns
`(first, last)` unchanged; when they overlap it returns
`clampRange(time, (first, last))`; when `time` is `None` it returns
`(first, last)`. -/
theorem findFirstLastKeyframes_spec (first last s e : Int) :
    findFirstLastKeyframes first last none = (first, last) ∧
    ((s > last ∨ e < first) →
      findFirstLastKeyframes first last (some (s, e)) = (first, last)) ∧
    (¬(s > last ∨ e < first) →
      some (findFirstLastKeyframes first last (some (s, e))) =
        clampRange (s, e) (first, last)) := by
  refine ⟨rfl, ?_, ?_⟩
  · intro h
    simp [findFirstLastKeyframes, clampRange, h]
  · intro h
    simp [findFirstLastKeyframes, clampRange, h]

/-- Witness for `findFirstLastKeyframes_spec` at concrete inputs
discharging both overlap hypotheses. -/
theorem findFirstLastKeyframes_spec_witness :
    findFirstLastKeyframes 10 30 (some (40, 50)) = (10, 30) ∧
    some (findFirstLastKeyframes 10 30 (some (15, 35))) =
      clampRange (15, 35) (10, 30) :=
  ⟨(findFirstLastKeyframes_spec 10 30 40 50).2.1 (by decide),
   (findFirstLastKeyframes_spec 10 30 15 35).2.2 (by decide)⟩

/-- C6: `isAscii(s)` is true exactly when every character of `s` has code
point below 128, and `Cache.open` on a maya path containing a character
with code point at least 128 raises `IOError` with the message
"Cannot load animation using non-ascii paths." instead of importing the
scene file. -/
theorem isAscii_open_spec (s p : String) :
    (isAscii s = true ↔ ∀ c ∈ s.data, c.toNat < 128) ∧
    ((∃ c ∈ p.data, 128 ≤ c.toNat) →
      cacheOpen p = .failed "Cannot load animation using non-ascii paths.") := by
  constructor
  · simp [isAscii, List.all_eq_true]
  · rintro ⟨c, hc, hge⟩
    have hA : ¬ (isAscii p = true) := by
      simp only [isAscii, List.all_eq_true, decide_eq_true_eq]
      push_neg
      exact ⟨c, hc, by omega⟩
    simp [cacheOpen, hA]

/-- Witness for `isAscii_open_spec`: the path "cachés.mb" contains a
character with code point 233 ≥ 128, so `Cache.open` fails on it. -/
theorem isAscii_open_spec_witness :
    cacheOpen "cachés.mb" =
      .failed "Cannot load animation using non-ascii paths." :=
  (isAscii_open_spec "" "cachés.mb").2 (by decide)

/-- C4 counterexample: the claim accepts zero-duration ranges, but
`Cache.save` on `time = (5, 5)` raises `AnimationTransferError`
("The start frame cannot be greater than or equal to the end frame!")
even though `5 > 5` is false. -/
theorem cacheSave_zero_duration_counterexample :
    cacheSave (fun _ => none) (some 5, some 5) =
      .error "The start frame cannot be greater than or equal to the end frame!" ∧
    ¬((5:Int) > 5) :=
  ⟨rfl, by decide⟩

/-- C4 (amended): for every metadata state and every time `(start, end)`
with both components not `None`, `Cache.save` raises
`AnimationTransferError` exactly when `start ≥ end`: the enforced
invariant is `start < end`, so a zero-duration range `start = end` is
rejected, not accepted. -/
theorem cacheSave_range_check (meta : String → Option Int) (s e : Int) :
    isError (cacheSave meta (some s, some e)) = true ↔ s ≥ e := by
  by_cases h : s ≥ e
  · simp [cacheSave, isError, h]
  · simp [cacheSave, isError, h]

/-- C7: after a successful `Cache.save` with `start < end`, the metadata
maps "startFrame" to `start` and "endFrame" to `end` exactly as requested
(the `end + 1` adjustment only reaches the export command), so
`startFrame()` returns `start` and `endFrame()` returns `end`. -/
theorem cacheSave_records_requested_range (meta : String → Option Int)
    (s e : Int) (h : s < e) :
    ∃ meta' rng, cacheSave meta (some s, some e) = .ok (meta', rng) ∧
      cacheStartFrame meta' = some s ∧
      cacheEndFrame meta' = some e ∧
      rng = (s, e + 1) := by
  simp only [cacheSave]
  rw [if_neg (by omega)]
  refine ⟨_, _, rfl, ?_, ?_, rfl⟩
  · simp [cacheStartFrame, setMetadata]
  · simp [cacheEndFrame, setMetadata]

/-- Witness for `cacheSave_records_requested_range` at a concrete input. -/
theorem cacheSave_records_requested_range_witness :
    (1:Int) < 5 ∧
    ∃ meta' rng, cacheSave (fun _ => none) (some 1, some 5) = .ok (meta', rng) ∧
      cacheStartFrame meta' = some 1 ∧
      cacheEndFrame meta' = some 5 ∧
      rng = (1, 5 + 1) :=
  ⟨by decide, cacheSave_records_requested_range (fun _ => none) 1 5 (by decide)⟩

/-- Embedding of attribute lookup on the `PasteOption` class (cache.py,
lines 39-45): only `Replace = "replace"` and `Import = "import"` are
defined; `ReplaceAll` and `ReplaceCompletely` are commented out, so
accessing them raises `AttributeError` (embedded as `none`). -/
def pasteOptionAttr (name : String) : Option String :=
  if name = "Replace" then some "replace"
  else if name = "Import" then some "import"
  else none

/-- Embedding of the `for path in paths` loop of `importAbc` (cache.py,
lines 297-316).  The result pairs the outcome with the list of paths on
which `cache.load` was called.  The first statement of the body,
`Cache.fromPath(path)` (a filesystem read, which cannot bind a local
variable), is followed by `if startFrame is None and isFirstAnim:`
(line 301); `startFrame` is not a parameter of `importAbc` and its only
assignment (line 315) occurs later in the body, so it is an unbound
local variable there and the first iteration raises `UnboundLocalError`
before `cache.load` is reached. -/
def importAbcLoop (paths : List String) (option : Option String) :
    Except String Unit × List String :=
  match paths, option with
  | [], _ => (.ok (), [])
  | _ :: _, _ =>
      (.error "UnboundLocalError: local variable startFrame referenced before assignment",
       [])

/-- Embedding of `importAbc(paths, spacing, objects, option, namespaces,
showDialog)` (cache.py, lines 250-316) with `showDialog=False` (the
dialog block is skipped) and the `spacing` normalisation omitted since
`spacing` never influences control flow before the failure.  When
`option` is `None` or `"replace all"`, line 275 reads
`PasteOption.ReplaceCompletely`, which is commented out, raising
`AttributeError` before the loop; otherwise the loop runs on `paths`. -/
def importAbc (paths : List String) (option : Option String) :
    Except String Unit × List String :=
  if option = none ∨ option = some "replace all" then
    match pasteOptionAttr "ReplaceCompletely" with
    | none =>
        (.error "AttributeError: class PasteOption has no attribute ReplaceCompletely",
         [])
    | some newOption => importAbcLoop paths (some newOption)
  else importAbcLoop paths option

/-- A field descriptor returned by the save validator: a field name and
the error text attached to it. -/
structure SchemaField where
  name : String
  error : String
deriving DecidableEq, Repr

/-- Value of the `byFrame` entry of the validator kwargs: the int field
holds an integer, or the empty string when the input box is cleared. -/
inductive ByFrameVal where
  | intVal (i : Int)
  | emptyStr
deriving DecidableEq, Repr

/-- The error field appended for an invalid `byFrame` value
(cacheitem.py, lines 183-189). -/
def byFrameErrorField : SchemaField :=
  ⟨"byFrame", "The by frame value cannot be less than 1!"⟩

/-- The error field appended for an invalid frame range (cacheitem.py,
lines 192-200). -/
def frameRangeErrorField : SchemaField :=
  ⟨"frameRange", "The start frame cannot be greater than or equal to the end frame!"⟩

/-- Embedding of `CacheItem.saveValidator(**kwargs)` (cacheitem.py, lines
173-202).  The base validator fields from `super().saveValidator(**kwargs)`
(defined outside src/) are passed in as `base`.  The Python condition
`kwargs.get("byFrame") == '' or kwargs.get("byFrame", 1) < 1` is false
for an absent key (`None == ''` is false and the default `1 < 1` is
false), true for the empty string, and `i < 1` for an integer `i`.
`kwargs.get("frameRange", (0, 1))` defaults to `(0, 1)`. -/
def saveValidator (base : List SchemaField) (byFrame : Option ByFrameVal)
    (frameRange : Option (Int × Int)) : List SchemaField :=
  let byFrameBad : Bool :=
    match byFrame with
    | none => false
    | some ByFrameVal.emptyStr => true
    | some (ByFrameVal.intVal i) => decide (i < 1)
  let fields := if byFrameBad then base ++ [byFrameErrorField] else base
  let range := frameRange.getD (0, 1)
  if range.1 ≥ range.2 then fields ++ [frameRangeErrorField] else fields

/-- Helper: the boolean `byFrame` test of `saveValidator` holds exactly
when the value is the empty string or an integer below 1. -/
theorem byFrameBad_iff (byFrame : Option ByFrameVal) :
    (match byFrame with
     | none => false
     | some ByFrameVal.emptyStr => true
     | some (ByFrameVal.intVal i) => decide (i < 1)) = true ↔
    (byFrame = some ByFrameVal.emptyStr ∨
     ∃ i, byFrame = some (ByFrameVal.intVal i) ∧ i < 1) := by
  rcases byFrame with _ | bf
  · simp
  · cases bf <;> simp

/-- C8: with a non-empty paths list and `showDialog=False`, `importAbc`
raises before any `cache.load` call, so it can never successfully load an
animation: when `option` is `None` or `"replace all"` it fails with
`AttributeError` on the undefined `PasteOption.ReplaceCompletely`, and
for any other option it fails with `UnboundLocalError` on the unbound
local `startFrame` at the first path. -/
theorem importAbc_never_loads (paths : List String) (option : Option String)
    (h : paths ≠ []) :
    (importAbc paths option).2 = [] ∧
    isError (importAbc paths option).1 = true ∧
    ((option = none ∨ option = some "replace all") →
      (importAbc paths option).1 =
        .error "AttributeError: class PasteOption has no attribute ReplaceCompletely") ∧
    (¬(option = none ∨ option = some "replace all") →
      (importAbc paths option).1 =
        .error "UnboundLocalError: local variable startFrame referenced before assignment") := by
  obtain ⟨p, ps, rfl⟩ := List.exists_cons_of_ne_nil h
  by_cases hopt : option = none ∨ option = some "replace all"
  · simp [importAbc, hopt, pasteOptionAttr, isError]
  · simp [importAbc, hopt, importAbcLoop, isError]

/-- Witness for `importAbc_never_loads` on one path with option
`"import"`: nothing is loaded and the unbound-local failure is raised. -/
theorem importAbc_never_loads_witness :
    (importAbc ["anim1"] (some "import")).2 = [] ∧
    isError (importAbc ["anim1"] (some "import")).1 = true ∧
    (importAbc ["anim1"] (some "import")).1 =
      .error "UnboundLocalError: local variable startFrame referenced before assignment" :=
  ⟨(importAbc_never_loads ["anim1"] (some "import") (by decide)).1,
   (importAbc_never_loads ["anim1"] (some "import") (by decide)).2.1,
   (importAbc_never_loads ["anim1"] (some "import") (by decide)).2.2.2 (by decide)⟩

open Classical in
/-- C9: `CacheItem.saveValidator` returns the base validator's fields
extended with the `byFrame` error exactly when the given `byFrame` value
is the empty string or an integer less than 1, and with the `frameRange`
error exactly when the given frame range (defaulting to `(0, 1)` when
absent) has `start ≥ end`; no other field errors are added. -/
theorem saveValidator_spec (base : List SchemaField) (byFrame : Option ByFrameVal)
    (frameRange : Option (Int × Int)) :
    saveValidator base byFrame frameRange =
      base ++
        (if byFrame = some ByFrameVal.emptyStr ∨
            (∃ i, byFrame = some (ByFrameVal.intVal i) ∧ i < 1)
         then [byFrameErrorField] else []) ++
        (if (frameRange.getD (0, 1)).1 ≥ (frameRange.getD (0, 1)).2
         then [frameRangeErrorField] else []) := by
  simp only [saveValidator]
  by_cases hb : byFrame = some ByFrameVal.emptyStr ∨
      ∃ i, byFrame = some (ByFrameVal.intVal i) ∧ i < 1
  · rw [if_pos hb, if_pos ((byFrameBad_iff byFrame).mpr hb)]
    split_ifs <;> simp [List.append_assoc]
  · rw [if_neg hb, if_neg (fun hm => hb ((byFrameBad_iff byFrame).mp hm))]
    split_ifs <;> simp

end StudioLibrary
